import Mathlib

/-
Verification of the Resource remote-object mapper of hdx-python-api
(src/hdx/data/resource.py), a CKAN client: CRUD against named remote
actions, plus a chunked datastore upload.

The shallow embedding models a metadata record as an ordered association
list of string fields, a remote call as a constructor naming the action and
its distinguishing payload, and the transport behind the missing base class
hdx/data/hdxobject.py as explicit oracles (success flags and parsed rows).
Every operation returns the list of remote calls it issued, in order,
together with its result, so that sequencing, abort-on-failure and cleanup
behaviour are all observable.
-/

namespace Hdx

/-- A metadata record: an ordered mapping from field name to value.
resource.py keeps it as the dictionary self.data; values are modelled as
strings, with an absent key standing for Python None. -/
abbrev Record := List (String × String)

/-- data.get(key, None) on a record. -/
def lookupField (r : Record) (k : String) : Option String :=
  (r.find? (fun p => p.1 == k)).map (fun p => p.2)

/-- data.get(key, None) followed by a Python truthiness test: the value when
the field is present and non-empty, none when it is absent or empty. -/
def fieldTruthy (r : Record) (k : String) : Option String :=
  match lookupField r k with
  | none => none
  | some s => if s = "" then none else some s

/-- Errors the Python code can raise: HDXError (hdx/data/hdxobject.py), or an
uncaught KeyError from a dictionary subscript such as self.data[id]. -/
inductive PyError where
  | hdxError (msg : String)
  | keyError (key : String)
deriving Repr, DecidableEq

/-- One remote call, as issued by the Resource methods: the remote action
(from Resource.actions) plus the payload fields that the claims talk about. -/
inductive Call where
  | datastoreCreate (resourceId : String) (force : Bool) (schema : List Record) (primaryKey : Option String)
  | datastoreUpsert (resourceId : String) (force : Bool) (records : List Record)
  | datastoreDelete (resourceId : String) (force : Bool)
  | resourceShow (identifier : String)
  | resourceUpdate (record : Record)
  | resourceDelete (resourceId : String)
deriving Repr, DecidableEq

/-- Modelled from the spec: the transport behind HDXObject._write_to_hdx and
the local file system (hdx/data/hdxobject.py is not under src/).
createOk tells whether the datastore_create call reports success (a
remote-reported failure is raised as HDXError), upsertOk i whether the i-th
datastore_upsert call does, openOk whether opening the downloaded file
succeeds, and rows are the rows csv.DictReader parses from the file. -/
structure DatastoreEnv where
  createOk : Bool
  openOk : Bool
  upsertOk : Nat → Bool
  rows : List Record

/-- Observable outcome of a datastore operation: the remote calls issued in
order, whether the temporary downloaded file was removed, and the returned
value or raised error. -/
structure DatastoreResult where
  calls : List Call
  fileDeleted : Bool
  outcome : Except PyError Unit
deriving Repr

/-- The batching loop of Resource.create_datastore: while offset is below
len(rows), slice rows[offset : offset + 10000] and advance by 10000. -/
def chunkRows {α : Type} : List α → List (List α)
  | [] => []
  | a :: rest => ((a :: rest).take 10000) :: chunkRows ((a :: rest).drop 10000)
termination_by l => l.length
decreasing_by
  rw [List.length_drop]
  simp only [List.length_cons]
  omega

/-- The upsert loop of Resource.create_datastore: one datastore_upsert call
per batch with force=True and method=upsert, stopping at the first failure,
which the surrounding except clause wraps into a single HDXError naming the
url. The counter i tracks which oracle flag governs each call. -/
def issueUpserts (rid url : String) (ok : Nat → Bool) :
    List (List Record) → Nat → List Call × Except PyError Unit
  | [], _ => ([], Except.ok ())
  | b :: rest, i =>
    if ok i then
      let r := issueUpserts rid url ok rest (i + 1)
      (Call.datastoreUpsert rid true b :: r.1, r.2)
    else
      ([Call.datastoreUpsert rid true b],
       Except.error (PyError.hdxError ("Upload to datastore of " ++ url ++ " failed!")))

/-- Resource.download (src lines 163-178): raises HDXError when the url field
is absent or empty, otherwise calls the downloader and returns the pair of
the url and the downloaded path. The downloader download_file is an external
utility, modelled as a function argument. -/
def download (record : Record) (download_file : String → String) :
    Except PyError (String × String) :=
  match fieldTruthy record "url" with
  | none => Except.error (PyError.hdxError "No URL to download!")
  | some url => Except.ok (url, download_file url)

/-- Resource.create_datastore (src lines 180-214): downloads the resource
(raising when the url is absent or empty), builds the payload from
self.data[id] (an uncaught KeyError when the key is absent), issues one
datastore_create call, and only then enters the try/except/finally block that
opens the file and upserts it in batches of 10000 rows. The finally block
closes and unlinks the file only when f was assigned, that is only when the
open succeeded; a failure of the datastore_create call happens before the
try block and skips the cleanup. -/
def create_datastore (record : Record) (schema : List Record)
    (primaryKey : Option String) (env : DatastoreEnv) : DatastoreResult :=
  match fieldTruthy record "url" with
  | none =>
    { calls := [], fileDeleted := false,
      outcome := Except.error (PyError.hdxError "No URL to download!") }
  | some url =>
    match lookupField record "id" with
    | none =>
      { calls := [], fileDeleted := false,
        outcome := Except.error (PyError.keyError "id") }
    | some rid =>
      if env.createOk then
        if env.openOk then
          let r := issueUpserts rid url env.upsertOk (chunkRows env.rows) 0
          { calls := Call.datastoreCreate rid true schema primaryKey :: r.1,
            fileDeleted := true,
            outcome := r.2 }
        else
          { calls := [Call.datastoreCreate rid true schema primaryKey],
            fileDeleted := false,
            outcome := Except.error
              (PyError.hdxError ("Upload to datastore of " ++ url ++ " failed!")) }
      else
        { calls := [Call.datastoreCreate rid true schema primaryKey],
          fileDeleted := false,
          outcome := Except.error (PyError.hdxError "Failed when trying to create datastore!") }

/-- Resource.delete_datastore (src lines 151-161): issues one
datastore_delete call with force=True for self.data[id] (an uncaught
KeyError when the key is absent). deleteOk is the success flag the transport
reports; when it is false the code only logs the result at debug level and
still returns normally, so both branches of the test produce the same
outcome. -/
def delete_datastore (record : Record) (deleteOk : Bool) :
    List Call × Except PyError Unit :=
  match lookupField record "id" with
  | none => ([], Except.error (PyError.keyError "id"))
  | some rid =>
    if deleteOk then ([Call.datastoreDelete rid true], Except.ok ())
    else ([Call.datastoreDelete rid true], Except.ok ())

/-- A schema file once parsed: the schema list and the optional primary_key,
as read by create_datastore_from_dict_schema. -/
structure SchemaData where
  schema : List Record
  primary_key : Option String

/-- Resource.create_datastore_from_dict_schema (src lines 216-228). -/
def create_datastore_from_dict_schema (record : Record) (d : SchemaData)
    (env : DatastoreEnv) : DatastoreResult :=
  create_datastore record d.schema d.primary_key env

/-- Resource.create_datastore_from_yaml_schema (src lines 230-241); the YAML
loader is an external utility, modelled as a function argument. -/
def create_datastore_from_yaml_schema (load_yaml : String → SchemaData)
    (record : Record) (path : String) (env : DatastoreEnv) : DatastoreResult :=
  create_datastore_from_dict_schema record (load_yaml path) env

/-- Resource.create_datastore_for_topline (src lines 243-250); the built-in
topline YAML path computed by script_dir_plus_file is the argument
toplinePath. -/
def create_datastore_for_topline (load_yaml : String → SchemaData)
    (toplinePath : String) (record : Record) (env : DatastoreEnv) : DatastoreResult :=
  create_datastore_from_dict_schema record (load_yaml toplinePath) env

/-- Resource.create_datastore_from_json_schema (src lines 252-263). -/
def create_datastore_from_json_schema (load_json : String → SchemaData)
    (record : Record) (path : String) (env : DatastoreEnv) : DatastoreResult :=
  create_datastore_from_dict_schema record (load_json path) env

/-- Resource.update_datastore (src lines 265-276): self.delete_datastore()
followed by self.create_datastore(schema, primary_key). An error raised by
the delete step (only the KeyError on a missing id) propagates before any
create work happens. -/
def update_datastore (record : Record) (schema : List Record)
    (primaryKey : Option String) (deleteOk : Bool) (env : DatastoreEnv) : DatastoreResult :=
  match delete_datastore record deleteOk with
  | (cs, Except.error e) => { calls := cs, fileDeleted := false, outcome := Except.error e }
  | (cs, Except.ok _) =>
    let c := create_datastore record schema primaryKey env
    { calls := cs ++ c.calls, fileDeleted := c.fileDeleted, outcome := c.outcome }

/-- Resource.update_datastore_from_yaml_schema (src lines 278-289). -/
def update_datastore_from_yaml_schema (load_yaml : String → SchemaData)
    (record : Record) (path : String) (deleteOk : Bool) (env : DatastoreEnv) : DatastoreResult :=
  match delete_datastore record deleteOk with
  | (cs, Except.error e) => { calls := cs, fileDeleted := false, outcome := Except.error e }
  | (cs, Except.ok _) =>
    let c := create_datastore_from_yaml_schema load_yaml record path env
    { calls := cs ++ c.calls, fileDeleted := c.fileDeleted, outcome := c.outcome }

/-- Resource.update_datastore_for_topline (src lines 291-298). -/
def update_datastore_for_topline (load_yaml : String → SchemaData)
    (toplinePath : String) (record : Record) (deleteOk : Bool) (env : DatastoreEnv) : DatastoreResult :=
  match delete_datastore record deleteOk with
  | (cs, Except.error e) => { calls := cs, fileDeleted := false, outcome := Except.error e }
  | (cs, Except.ok _) =>
    let c := create_datastore_for_topline load_yaml toplinePath record env
    { calls := cs ++ c.calls, fileDeleted := c.fileDeleted, outcome := c.outcome }

/-- Resource.update_datastore_from_json_schema (src lines 300-311). -/
def update_datastore_from_json_schema (load_json : String → SchemaData)
    (record : Record) (path : String) (deleteOk : Bool) (env : DatastoreEnv) : DatastoreResult :=
  match delete_datastore record deleteOk with
  | (cs, Except.error e) => { calls := cs, fileDeleted := false, outcome := Except.error e }
  | (cs, Except.ok _) =>
    let c := create_datastore_from_json_schema load_json record path env
    { calls := cs ++ c.calls, fileDeleted := c.fileDeleted, outcome := c.outcome }

/-- The refinement target of the full delete-and-recreate reading: run
delete_datastore and, when it returned normally, the given create operation,
concatenating the call traces. -/
def deleteThenCreate (record : Record) (deleteOk : Bool)
    (created : DatastoreResult) : DatastoreResult :=
  match delete_datastore record deleteOk with
  | (cs, Except.error e) => { calls := cs, fileDeleted := false, outcome := Except.error e }
  | (cs, Except.ok _) =>
    { calls := cs ++ created.calls, fileDeleted := created.fileDeleted,
      outcome := created.outcome }

/-- The result part of the response the transport hands back for a search
(HDXObject._read_from_hdx returns a success flag and a result dictionary; a
falsy result is modelled as none, a missing count key as count = none). -/
structure SearchResult where
  count : Option Nat
  results : List Record

/-- Resource.search_in_hdx (src lines 123-149): with a falsy result, or a
missing or falsy (zero) count, the loop body never runs and the empty list
is returned even when result[results] is non-empty; otherwise one Resource
is built per element of result[results], in order. -/
def search_in_hdx (response : Option SearchResult) : List Record :=
  match response with
  | none => []
  | some result =>
    match result.count with
    | none => []
    | some 0 => []
    | some (_ + 1) => result.results

/-- The possible outcomes of the show call behind HDXObject._load_from_hdx. -/
inductive ShowResponse where
  | found (r : Record)
  | notFound
  | transportFail (msg : String)

/-- Modelled from the spec: HDXObject._load_from_hdx (hdx/data/hdxobject.py
is not under src/) issues the show action and populates the object from the
response, reporting success with True and an ordinary not-found with False;
it raises only for a transport-level failure. -/
def loadFromHdx (resp : ShowResponse) : Except PyError (Bool × Option Record) :=
  match resp with
  | ShowResponse.found r => Except.ok (true, some r)
  | ShowResponse.notFound => Except.ok (false, none)
  | ShowResponse.transportFail msg => Except.error (PyError.hdxError msg)

/-- Resource.read_from_hdx (src lines 70-86): builds a Resource, loads it
from HDX, and returns the populated Resource when the load reported success,
None otherwise. -/
def read_from_hdx (resp : ShowResponse) : Except PyError (Option Record) :=
  match loadFromHdx resp with
  | Except.error e => Except.error e
  | Except.ok (true, r) => Except.ok r
  | Except.ok (false, _) => Except.ok none

/-- Modelled from the spec: HDXObject._update_in_hdx behind
Resource.update_in_hdx (hdx/data/hdxobject.py is not under src/). A record
passed to update must carry a non-empty identifier field; absence or
emptiness is a usage error raised as HDXError before any remote call is
attempted. Otherwise the show action checks existence and the update action
is issued, with remote failures raised after the calls. -/
def update_in_hdx (record : Record) (remoteExists updateOk : Bool) :
    List Call × Except PyError Unit :=
  match fieldTruthy record "id" with
  | none => ([], Except.error (PyError.hdxError "No id field (mandatory) in resource metadata!"))
  | some rid =>
    if remoteExists then
      if updateOk then
        ([Call.resourceShow rid, Call.resourceUpdate record], Except.ok ())
      else
        ([Call.resourceShow rid, Call.resourceUpdate record],
         Except.error (PyError.hdxError "Failed when trying to update resource!"))
    else
      ([Call.resourceShow rid],
       Except.error (PyError.hdxError "No existing resource to update!"))

/-- Modelled from the spec: HDXObject._delete_from_hdx behind
Resource.delete_from_hdx (hdx/data/hdxobject.py is not under src/): requires
a non-empty id, raising HDXError before any remote call when it is absent or
empty; otherwise issues the delete action. -/
def delete_from_hdx (record : Record) (deleteOk : Bool) :
    List Call × Except PyError Unit :=
  match fieldTruthy record "id" with
  | none => ([], Except.error (PyError.hdxError "No id field (mandatory) in resource metadata!"))
  | some rid =>
    if deleteOk then ([Call.resourceDelete rid], Except.ok ())
    else ([Call.resourceDelete rid], Except.error (PyError.hdxError "Failed when trying to delete resource!"))

/-- One page of a remote search response: the remote-reported total count
and the rows of this page. The remote is modelled as a function from the
cursor offset to the page it returns. -/
structure SearchPage where
  count : Nat
  results : List Record

/-- Number of cursor steps needed for a total of count rows at a page size:
the ceiling of count / pageSize. -/
def numPages (pageSize count : Nat) : Nat := (count + pageSize - 1) / pageSize

/-- Modelled from the spec: one step of the paging cursor of
Dataset.search_in_hdx (hdx/data/dataset.py is not under src/; its test
TestDataset.test_search_in_hdx is). At cursor position i the client asks for
min pageSize (count - offset) rows at offset i * pageSize, records the
request, and fails when the remote returns more rows than requested instead
of silently truncating; once failed, later steps do nothing. -/
def searchStep (pageSize count : Nat) (remote : Nat → SearchPage)
    (acc : List (Nat × Nat) × Except PyError (List Record)) (i : Nat) :
    List (Nat × Nat) × Except PyError (List Record) :=
  match acc.2 with
  | Except.error _ => acc
  | Except.ok xs =>
    let offset := i * pageSize
    let requested := min pageSize (count - offset)
    let page := remote offset
    if requested < page.results.length then
      (acc.1 ++ [(offset, requested)],
       Except.error (PyError.hdxError "Remote returned more rows than requested!"))
    else
      (acc.1 ++ [(offset, requested)], Except.ok (xs ++ page.results))

/-- Modelled from the spec: the cursor loop of Dataset.search_in_hdx: read
the total count from the first page and follow the offset/limit cursor, one
search call per step, until the count is exhausted. -/
def searchRun (pageSize : Nat) (remote : Nat → SearchPage) :
    List (Nat × Nat) × Except PyError (List Record) :=
  (List.range (numPages pageSize (remote 0).count)).foldl
    (searchStep pageSize (remote 0).count remote) ([], Except.ok [])

/-- Modelled from the spec: Dataset.search_in_hdx with an optional rows
argument; asking for more rows than the configured page-size ceiling fails
up front, otherwise the cursor loop runs. -/
def searchPaged (pageSize : Nat) (rowsArg : Option Nat)
    (remote : Nat → SearchPage) : List (Nat × Nat) × Except PyError (List Record) :=
  match rowsArg with
  | some r =>
    if pageSize < r then
      ([], Except.error (PyError.hdxError "rows greater than page size!"))
    else searchRun pageSize remote
  | none => searchRun pageSize remote

/-- The concatenation, in cursor order, of the pages the remote serves. -/
def pagesJoin (pageSize : Nat) (remote : Nat → SearchPage) : List Record :=
  ((List.range (numPages pageSize (remote 0).count)).map
    (fun i => (remote (i * pageSize)).results)).flatten

/-- Sample record with both an id and a url, for concrete runs. -/
def sampleRecord : Record := [("id", "rid1"), ("url", "http://example.org/data.csv")]

/-- Sample record whose id field is present but empty. -/
def emptyIdRecord : Record := [("id", ""), ("url", "http://example.org/data.csv")]

/-- Sample record with an id but no url. -/
def noUrlRecord : Record := [("id", "rid1")]

/-- Sample parsed rows. -/
def sampleRow1 : Record := [("a", "1")]

/-- Sample parsed rows. -/
def sampleRow2 : Record := [("a", "2")]

/-- Environment in which every remote call succeeds. -/
def envAllOk : DatastoreEnv :=
  { createOk := true, openOk := true, upsertOk := fun _ => true,
    rows := [sampleRow1, sampleRow2] }

/-- Environment in which the first datastore_upsert call fails. -/
def envUpsertFails : DatastoreEnv :=
  { createOk := true, openOk := true, upsertOk := fun _ => false,
    rows := [sampleRow1] }

/-- Environment in which the initial datastore_create call fails. -/
def envCreateFails : DatastoreEnv :=
  { createOk := false, openOk := true, upsertOk := fun _ => true, rows := [] }

/-- A well-behaved remote with three rows served two at a time. -/
def sampleRemote : Nat → SearchPage := fun offset =>
  if offset = 0 then { count := 3, results := [sampleRow1, sampleRow2] }
  else { count := 3, results := [sampleRow1] }

/-- A remote that reports one row but returns two, violating the page-size
contract on the very first page. -/
def badRemote : Nat → SearchPage := fun _ =>
  { count := 1, results := [sampleRow1, sampleRow2] }

/-- A remote that reports five rows and always returns two: at page size 2
the first two cursor steps are served correctly and the third, which asks
for the single remaining row, over-returns. -/
def lateBadRemote : Nat → SearchPage := fun _ =>
  { count := 5, results := [sampleRow1, sampleRow2] }

theorem chunkRows_nil {α : Type} : chunkRows ([] : List α) = [] := by
  simp [chunkRows]

theorem chunkRows_cons {α : Type} (l : List α) (h : l ≠ []) :
    chunkRows l = l.take 10000 :: chunkRows (l.drop 10000) := by
  match l with
  | [] => exact absurd rfl h
  | a :: rest => conv_lhs => rw [chunkRows]

theorem chunkRows_ne_nil {α : Type} (l : List α) (h : l ≠ []) :
    chunkRows l ≠ [] := by
  rw [chunkRows_cons l h]
  exact List.cons_ne_nil _ _

theorem chunkRows_flatten {α : Type} (l : List α) : (chunkRows l).flatten = l := by
  by_cases h : l = []
  · subst h
    rw [chunkRows_nil, List.flatten_nil]
  · rw [chunkRows_cons l h, List.flatten_cons, chunkRows_flatten (l.drop 10000)]
    exact List.take_append_drop 10000 l
termination_by l.length
decreasing_by
  have hlen : l.length ≠ 0 := fun h0 => h (List.eq_nil_of_length_eq_zero h0)
  rw [List.length_drop]
  omega

theorem chunkRows_length {α : Type} (l : List α) :
    (chunkRows l).length = (l.length + 10000 - 1) / 10000 := by
  by_cases h : l = []
  · subst h
    rw [chunkRows_nil]
    simp
  · rw [chunkRows_cons l h]
    have ih := chunkRows_length (l.drop 10000)
    have hlen : l.length ≠ 0 := fun h0 => h (List.eq_nil_of_length_eq_zero h0)
    rw [List.length_cons, ih, List.length_drop]
    omega
termination_by l.length
decreasing_by
  have hlen : l.length ≠ 0 := fun h0 => h (List.eq_nil_of_length_eq_zero h0)
  rw [List.length_drop]
  omega

theorem chunkRows_mem {α : Type} (l : List α) :
    ∀ b ∈ chunkRows l, b.length ≤ 10000 ∧ b ≠ [] := by
  by_cases h : l = []
  · subst h
    rw [chunkRows_nil]
    intro b hb
    cases hb
  · rw [chunkRows_cons l h]
    intro b hb
    rcases List.mem_cons.mp hb with hb | hb
    · subst hb
      have hlen : l.length ≠ 0 := fun h0 => h (List.eq_nil_of_length_eq_zero h0)
      constructor
      · rw [List.length_take]
        exact min_le_left _ _
      · intro htake
        have h2 : (l.take 10000).length = 0 := by rw [htake]; rfl
        rw [List.length_take] at h2
        simp only [min_def] at h2
        split at h2 <;> omega
    · exact chunkRows_mem (l.drop 10000) b hb
termination_by l.length
decreasing_by
  have hlen : l.length ≠ 0 := fun h0 => h (List.eq_nil_of_length_eq_zero h0)
  rw [List.length_drop]
  omega

theorem chunkRows_dropLast {α : Type} (l : List α) :
    ∀ b ∈ (chunkRows l).dropLast, b.length = 10000 := by
  by_cases h : l = []
  · subst h
    rw [chunkRows_nil]
    intro b hb
    cases hb
  · rw [chunkRows_cons l h]
    by_cases h2 : l.drop 10000 = []
    · rw [h2, chunkRows_nil, List.dropLast_single]
      intro b hb
      cases hb
    · rw [List.dropLast_cons_of_ne_nil (chunkRows_ne_nil _ h2)]
      intro b hb
      rcases List.mem_cons.mp hb with hb | hb
      · subst hb
        have h3 : 10000 < l.length := by
          by_contra hle
          exact h2 (List.drop_eq_nil_of_le (by omega))
        rw [List.length_take]
        simp only [min_def]
        split <;> omega
      · exact chunkRows_dropLast (l.drop 10000) b hb
termination_by l.length
decreasing_by
  have hlen : l.length ≠ 0 := fun h0 => h (List.eq_nil_of_length_eq_zero h0)
  rw [List.length_drop]
  omega

theorem issueUpserts_all_ok (rid url : String) (ok : Nat → Bool)
    (batches : List (List Record)) (i : Nat) (h : ∀ j, ok j = true) :
    issueUpserts rid url ok batches i
      = (batches.map (Call.datastoreUpsert rid true), Except.ok ()) := by
  induction batches generalizing i with
  | nil => rfl
  | cons b rest ih => simp [issueUpserts, h i, ih (i + 1)]

theorem issueUpserts_fail_at (rid url : String) (ok : Nat → Bool)
    (batches : List (List Record)) (i k : Nat)
    (hbefore : ∀ j, j < k → ok (i + j) = true)
    (hk : ok (i + k) = false)
    (hlt : k < batches.length) :
    issueUpserts rid url ok batches i
      = ((batches.take (k + 1)).map (Call.datastoreUpsert rid true),
         Except.error (PyError.hdxError ("Upload to datastore of " ++ url ++ " failed!"))) := by
  induction batches generalizing i k with
  | nil => simp at hlt
  | cons b rest ih =>
    cases k with
    | zero =>
      have h0 : ok i = false := by simpa using hk
      simp [issueUpserts, h0]
    | succ k =>
      have h0 : ok i = true := by simpa using hbefore 0 (Nat.succ_pos k)
      have hk2 : ok (i + 1 + k) = false := by
        have hik : i + 1 + k = i + (k + 1) := by omega
        rw [hik]
        exact hk
      have hb2 : ∀ j, j < k → ok (i + 1 + j) = true := by
        intro j hj
        have hij : i + 1 + j = i + (j + 1) := by omega
        rw [hij]
        exact hbefore (j + 1) (by omega)
      have hlt2 : k < rest.length := by
        simp only [List.length_cons] at hlt
        omega
      simp [issueUpserts, h0, ih (i + 1) k hb2 hk2 hlt2, List.take_succ_cons]

theorem searchStep_of_error (pageSize count : Nat) (remote : Nat → SearchPage)
    (acc : List (Nat × Nat) × Except PyError (List Record)) (i : Nat) (e : PyError)
    (h : acc.2 = Except.error e) : searchStep pageSize count remote acc i = acc := by
  obtain ⟨reqs, r⟩ := acc
  simp only at h
  subst h
  rfl

theorem searchRun_fold_no_violation (pageSize count : Nat)
    (remote : Nat → SearchPage) (m : Nat)
    (hgood : ∀ j, j < m →
      (remote (j * pageSize)).results.length ≤ min pageSize (count - j * pageSize)) :
    ∃ reqs xs, (List.range m).foldl (searchStep pageSize count remote) ([], Except.ok [])
      = (reqs, Except.ok xs) := by
  induction m with
  | zero => exact ⟨[], [], rfl⟩
  | succ m ih =>
    obtain ⟨reqs, xs, hfold⟩ := ih (fun j hj => hgood j (Nat.lt_succ_of_lt hj))
    rw [List.range_succ, List.foldl_append, hfold, List.foldl_cons, List.foldl_nil]
    have hm := hgood m (Nat.lt_succ_self m)
    refine ⟨reqs ++ [(m * pageSize, min pageSize (count - m * pageSize))],
      xs ++ (remote (m * pageSize)).results, ?_⟩
    simp only [searchStep]
    rw [if_neg (Nat.not_lt.mpr hm)]

theorem searchRun_fold_violation (pageSize count : Nat)
    (remote : Nat → SearchPage) (m k : Nat) (hk : k < m)
    (hbefore : ∀ j, j < k →
      (remote (j * pageSize)).results.length ≤ min pageSize (count - j * pageSize))
    (hviol : min pageSize (count - k * pageSize) < (remote (k * pageSize)).results.length) :
    ((List.range m).foldl (searchStep pageSize count remote) ([], Except.ok [])).2
      = Except.error (PyError.hdxError "Remote returned more rows than requested!") := by
  induction m with
  | zero => exact absurd hk (Nat.not_lt_zero k)
  | succ m ih =>
    rw [List.range_succ, List.foldl_append, List.foldl_cons, List.foldl_nil]
    rcases Nat.lt_or_ge k m with hkm | hkm
    · have herr := ih hkm
      rw [searchStep_of_error pageSize count remote _ m _ herr]
      exact herr
    · have hkm2 : k = m := by omega
      subst hkm2
      obtain ⟨reqs, xs, hfold⟩ :=
        searchRun_fold_no_violation pageSize count remote k hbefore
      rw [hfold]
      simp only [searchStep]
      rw [if_pos hviol]

theorem searchRun_fold_ok (pageSize count : Nat) (remote : Nat → SearchPage) (m : Nat)
    (hgood : ∀ i, i < m →
      (remote (i * pageSize)).results.length = min pageSize (count - i * pageSize)) :
    (List.range m).foldl (searchStep pageSize count remote) ([], Except.ok [])
      = ((List.range m).map (fun i => (i * pageSize, min pageSize (count - i * pageSize))),
         Except.ok (((List.range m).map (fun i => (remote (i * pageSize)).results)).flatten)) := by
  induction m with
  | zero => rfl
  | succ m ih =>
    rw [List.range_succ, List.foldl_append, List.map_append, List.map_append,
      ih (fun i hi => hgood i (Nat.lt_succ_of_lt hi))]
    have hm := hgood m (Nat.lt_succ_self m)
    simp [searchStep, hm, List.flatten_append]

theorem sum_min_range (p c m : Nat) :
    (((List.range m).map (fun i => min p (c - i * p))).sum) = min c (m * p) := by
  induction m with
  | zero => simp
  | succ m ih =>
    rw [List.range_succ, List.map_append, List.sum_append, ih]
    simp only [List.map_cons, List.map_nil, List.sum_cons, List.sum_nil, Nat.add_zero,
      Nat.succ_mul]
    generalize m * p = X
    omega

theorem le_numPages_mul (p c : Nat) (hp : 0 < p) : c ≤ numPages p c * p := by
  have h1 := Nat.div_add_mod' (c + p - 1) p
  have h2 : (c + p - 1) % p < p := Nat.mod_lt _ hp
  unfold numPages
  generalize hX : (c + p - 1) / p * p = X at h1 ⊢
  omega

/-- Claim C1: for every record carrying an id and every downloaded CSV file that
parses into N rows, create_datastore partitions the rows into exactly
ceil(N/10000) batches, each of 10000 rows except a possibly shorter
non-empty final batch, whose concatenation in order is the file, and issues
one datastore_upsert call per batch carrying the force flag, strictly in
file order, sequentially, right after the single datastore_create call. -/
theorem create_datastore_c1_batches
    (record : Record) (schema : List Record) (pk : Option String)
    (env : DatastoreEnv) (url rid : String)
    (hurl : fieldTruthy record "url" = some url)
    (hid : lookupField record "id" = some rid)
    (hc : env.createOk = true) (ho : env.openOk = true)
    (hok : ∀ i, env.upsertOk i = true) :
    (create_datastore record schema pk env).calls
        = Call.datastoreCreate rid true schema pk
            :: (chunkRows env.rows).map (Call.datastoreUpsert rid true)
      ∧ (create_datastore record schema pk env).outcome = Except.ok ()
      ∧ (chunkRows env.rows).length = (env.rows.length + 10000 - 1) / 10000
      ∧ (chunkRows env.rows).flatten = env.rows
      ∧ (∀ b ∈ (chunkRows env.rows).dropLast, b.length = 10000)
      ∧ (∀ b ∈ chunkRows env.rows, b.length ≤ 10000 ∧ b ≠ []) := by
  have hrun := issueUpserts_all_ok rid url env.upsertOk (chunkRows env.rows) 0 hok
  refine ⟨?_, ?_, chunkRows_length env.rows, chunkRows_flatten env.rows,
    chunkRows_dropLast env.rows, chunkRows_mem env.rows⟩ <;>
    simp [create_datastore, hurl, hid, hc, ho, hrun]

/-- Witness for C1 at a concrete record, environment and file of two rows. -/
theorem create_datastore_c1_witness :
    (create_datastore sampleRecord [] none envAllOk).calls
        = Call.datastoreCreate "rid1" true [] none
            :: (chunkRows envAllOk.rows).map (Call.datastoreUpsert "rid1" true)
      ∧ (create_datastore sampleRecord [] none envAllOk).outcome = Except.ok ()
      ∧ (chunkRows envAllOk.rows).length = (envAllOk.rows.length + 10000 - 1) / 10000
      ∧ (chunkRows envAllOk.rows).flatten = envAllOk.rows
      ∧ (∀ b ∈ (chunkRows envAllOk.rows).dropLast, b.length = 10000)
      ∧ (∀ b ∈ chunkRows envAllOk.rows, b.length ≤ 10000 ∧ b ≠ []) :=
  create_datastore_c1_batches sampleRecord [] none envAllOk
    "http://example.org/data.csv" "rid1" rfl rfl rfl rfl (fun _ => rfl)

/-- Claim C2: if the datastore_upsert call for batch k fails while every earlier
batch succeeded, then no batch after k is issued (the call trace stops at
batch k) and the whole operation is reported to the caller as the single
HDXError upload failure naming the url. -/
theorem create_datastore_c2_abort
    (record : Record) (schema : List Record) (pk : Option String)
    (env : DatastoreEnv) (url rid : String) (k : Nat)
    (hurl : fieldTruthy record "url" = some url)
    (hid : lookupField record "id" = some rid)
    (hc : env.createOk = true) (ho : env.openOk = true)
    (hbefore : ∀ j, j < k → env.upsertOk j = true)
    (hk : env.upsertOk k = false)
    (hlt : k < (chunkRows env.rows).length) :
    (create_datastore record schema pk env).calls
        = Call.datastoreCreate rid true schema pk
            :: ((chunkRows env.rows).take (k + 1)).map (Call.datastoreUpsert rid true)
      ∧ (create_datastore record schema pk env).outcome
          = Except.error (PyError.hdxError ("Upload to datastore of " ++ url ++ " failed!")) := by
  have hrun := issueUpserts_fail_at rid url env.upsertOk (chunkRows env.rows) 0 k
    (fun j hj => by simpa using hbefore j hj) (by simpa using hk) hlt
  constructor <;> simp [create_datastore, hurl, hid, hc, ho, hrun]

/-- Witness for C2: the first upsert fails on a one-row file. -/
theorem create_datastore_c2_witness :
    0 < (chunkRows envUpsertFails.rows).length
      ∧ (create_datastore sampleRecord [] none envUpsertFails).outcome
          = Except.error (PyError.hdxError
              ("Upload to datastore of " ++ "http://example.org/data.csv" ++ " failed!")) := by
  have hlen : 0 < (chunkRows envUpsertFails.rows).length := by
    rw [chunkRows_length]
    decide
  exact ⟨hlen,
    (create_datastore_c2_abort sampleRecord [] none envUpsertFails
      "http://example.org/data.csv" "rid1" 0 rfl rfl rfl rfl
      (fun j hj => absurd hj (Nat.not_lt_zero j)) rfl hlen).2⟩

/-- Counterexample to C3 as stated: a record with a url and an id whose
datastore_create call fails. The resource file has been downloaded, yet the
temporary file is not deleted, because the failing call sits before the
try/finally block that performs the cleanup. -/
theorem create_datastore_c3_counterexample :
    fieldTruthy sampleRecord "url" = some "http://example.org/data.csv"
      ∧ lookupField sampleRecord "id" = some "rid1"
      ∧ (create_datastore sampleRecord [] none envCreateFails).fileDeleted = false
      ∧ (create_datastore sampleRecord [] none envCreateFails).outcome
          = Except.error (PyError.hdxError "Failed when trying to create datastore!") := by
  refine ⟨rfl, rfl, rfl, rfl⟩

/-- Claim C3 amended: after the download, the temporary file is deleted exactly
when the initial datastore_create call succeeds and the downloaded file can
be opened; in particular any upsert failure still removes the file, but a
datastore_create or open failure leaves it behind. -/
theorem create_datastore_c3_cleanup
    (record : Record) (schema : List Record) (pk : Option String)
    (env : DatastoreEnv) (url rid : String)
    (hurl : fieldTruthy record "url" = some url)
    (hid : lookupField record "id" = some rid) :
    (create_datastore record schema pk env).fileDeleted
      = (env.createOk && env.openOk) := by
  cases hc : env.createOk <;> cases ho : env.openOk <;>
    simp [create_datastore, hurl, hid, hc, ho]

/-- Witness for the amended C3 at a concrete record and environment. -/
theorem create_datastore_c3_witness :
    fieldTruthy sampleRecord "url" = some "http://example.org/data.csv"
      ∧ (create_datastore sampleRecord [] none envAllOk).fileDeleted
          = (envAllOk.createOk && envAllOk.openOk) :=
  ⟨rfl, create_datastore_c3_cleanup sampleRecord [] none envAllOk
    "http://example.org/data.csv" "rid1" rfl rfl⟩

/-- Claim C4: the search follows the offset/limit cursor, one search call per
step, in order, until the remote-reported total count is exhausted, and with
a well-behaved remote it returns the concatenation of the served pages,
whose length is exactly the remote-reported count; requesting more rows than
the configured page-size ceiling fails up front; and whenever the remote
returns more rows than requested at any cursor step k, behaving within the
contract on the earlier steps, the operation fails with an error instead of
silently truncating. -/
theorem search_paged_c4 :
    (∀ (p : Nat) (remote : Nat → SearchPage), 0 < p →
      (∀ i, i < numPages p (remote 0).count →
        (remote (i * p)).results.length = min p ((remote 0).count - i * p)) →
      searchPaged p none remote
          = ((List.range (numPages p (remote 0).count)).map
               (fun i => (i * p, min p ((remote 0).count - i * p))),
             Except.ok (pagesJoin p remote))
        ∧ (pagesJoin p remote).length = (remote 0).count)
      ∧ (∀ (p r : Nat) (remote : Nat → SearchPage), p < r →
          searchPaged p (some r) remote
            = ([], Except.error (PyError.hdxError "rows greater than page size!")))
      ∧ (∀ (p : Nat) (remote : Nat → SearchPage) (k : Nat),
          k < numPages p (remote 0).count →
          (∀ j, j < k →
            (remote (j * p)).results.length ≤ min p ((remote 0).count - j * p)) →
          min p ((remote 0).count - k * p) < (remote (k * p)).results.length →
          (searchPaged p none remote).2
            = Except.error (PyError.hdxError "Remote returned more rows than requested!")) := by
  refine ⟨?_, ?_, ?_⟩
  · intro p remote hp hgood
    have hfold := searchRun_fold_ok p (remote 0).count remote
      (numPages p (remote 0).count) hgood
    constructor
    · show searchRun p remote = _
      unfold searchRun pagesJoin
      exact hfold
    · unfold pagesJoin
      rw [List.length_flatten, List.map_map]
      have hcong : ((List.range (numPages p (remote 0).count)).map
            (List.length ∘ fun i => (remote (i * p)).results))
          = (List.range (numPages p (remote 0).count)).map
              (fun i => min p ((remote 0).count - i * p)) := by
        apply List.map_congr_left
        intro i hi
        exact hgood i (List.mem_range.mp hi)
      rw [hcong, sum_min_range]
      exact min_eq_left (le_numPages_mul p (remote 0).count hp)
  · intro p r remote hlt
    simp [searchPaged, hlt]
  · intro p remote k hk hbefore hviol
    show (searchRun p remote).2 = _
    unfold searchRun
    exact searchRun_fold_violation p (remote 0).count remote
      (numPages p (remote 0).count) k hk hbefore hviol

/-- Witness for C4 at page size 2: a well-behaved remote serving three rows
over two pages, an over-the-ceiling rows argument, a remote violating the
page-size contract on the first cursor step, and one violating it only on
the third cursor step. -/
theorem search_paged_c4_witness :
    (searchPaged 2 none sampleRemote
        = ((List.range (numPages 2 (sampleRemote 0).count)).map
             (fun i => (i * 2, min 2 ((sampleRemote 0).count - i * 2))),
           Except.ok (pagesJoin 2 sampleRemote))
      ∧ (pagesJoin 2 sampleRemote).length = (sampleRemote 0).count)
      ∧ searchPaged 2 (some 5) sampleRemote
          = ([], Except.error (PyError.hdxError "rows greater than page size!"))
      ∧ (searchPaged 2 none badRemote).2
          = Except.error (PyError.hdxError "Remote returned more rows than requested!")
      ∧ (searchPaged 2 none lateBadRemote).2
          = Except.error (PyError.hdxError "Remote returned more rows than requested!") :=
  ⟨search_paged_c4.1 2 sampleRemote (by decide) (by decide),
   search_paged_c4.2.1 2 5 sampleRemote (by decide),
   search_paged_c4.2.2 2 badRemote 0 (by decide) (by decide) (by decide),
   search_paged_c4.2.2 2 lateBadRemote 2 (by decide) (by decide) (by decide)⟩

/-- Claim C5: read_from_hdx issues the show action and returns the Resource
populated from the remote response on success, returns None (no exception)
on an ordinary not-found, and raises only for a transport-level failure. -/
theorem read_from_hdx_c5 (resp : ShowResponse) :
    (∀ r, resp = ShowResponse.found r → read_from_hdx resp = Except.ok (some r))
      ∧ (resp = ShowResponse.notFound → read_from_hdx resp = Except.ok none)
      ∧ (∀ msg, resp = ShowResponse.transportFail msg →
          read_from_hdx resp = Except.error (PyError.hdxError msg)) := by
  refine ⟨fun r h => ?_, fun h => ?_, fun msg h => ?_⟩ <;> subst h <;> rfl

/-- Witness for C5: a found record, a not-found, and a transport failure. -/
theorem read_from_hdx_c5_witness :
    read_from_hdx (ShowResponse.found sampleRow1) = Except.ok (some sampleRow1)
      ∧ read_from_hdx ShowResponse.notFound = Except.ok none
      ∧ read_from_hdx (ShowResponse.transportFail "503")
          = Except.error (PyError.hdxError "503") :=
  ⟨(read_from_hdx_c5 (ShowResponse.found sampleRow1)).1 sampleRow1 rfl,
   (read_from_hdx_c5 ShowResponse.notFound).2.1 rfl,
   (read_from_hdx_c5 (ShowResponse.transportFail "503")).2.2 "503" rfl⟩

/-- Claim C6: when the id field is absent or empty, update_in_hdx and
delete_from_hdx fail with a locally raised HDXError and an empty call trace,
so no remote update or delete call is attempted and the failure is not a
remote error. -/
theorem identifier_required_c6 (record : Record)
    (hid : fieldTruthy record "id" = none) (remoteExists updateOk deleteOk : Bool) :
    update_in_hdx record remoteExists updateOk
        = ([], Except.error (PyError.hdxError "No id field (mandatory) in resource metadata!"))
      ∧ delete_from_hdx record deleteOk
        = ([], Except.error (PyError.hdxError "No id field (mandatory) in resource metadata!")) := by
  constructor <;> simp [update_in_hdx, delete_from_hdx, hid]

/-- Witness for C6 at a record whose id field is present but empty. -/
theorem identifier_required_c6_witness :
    fieldTruthy emptyIdRecord "id" = none
      ∧ update_in_hdx emptyIdRecord true true
          = ([], Except.error (PyError.hdxError "No id field (mandatory) in resource metadata!"))
      ∧ delete_from_hdx emptyIdRecord true
          = ([], Except.error (PyError.hdxError "No id field (mandatory) in resource metadata!")) :=
  ⟨rfl, (identifier_required_c6 emptyIdRecord rfl true true true).1,
    (identifier_required_c6 emptyIdRecord rfl true true true).2⟩

/-- Counterexample to C7 as stated: delete_datastore with a remote that
reports failure (deleteOk = false) returns normally with no error, so this
remote-reported failure is swallowed after a debug log instead of being
surfaced to the immediate caller. -/
theorem delete_datastore_c7_counterexample :
    delete_datastore sampleRecord false
      = ([Call.datastoreDelete "rid1" true], Except.ok ()) := rfl

/-- Claim C7 amended: no operation retries a failure: delete_datastore issues
exactly one datastore_delete call whatever the remote reports; but rather
than surfacing a remote-reported failure it logs it at debug level and
returns normally, so the caller sees success either way. -/
theorem delete_datastore_c7_no_retry (record : Record) (rid : String)
    (deleteOk : Bool) (hid : lookupField record "id" = some rid) :
    (delete_datastore record deleteOk).1 = [Call.datastoreDelete rid true]
      ∧ (delete_datastore record deleteOk).2 = Except.ok () := by
  cases deleteOk <;> simp [delete_datastore, hid]

/-- Witness for the amended C7 at a concrete record with a failing remote. -/
theorem delete_datastore_c7_witness :
    (delete_datastore sampleRecord false).1 = [Call.datastoreDelete "rid1" true]
      ∧ (delete_datastore sampleRecord false).2 = Except.ok () :=
  delete_datastore_c7_no_retry sampleRecord "rid1" false rfl

/-- Claim C8: with an absent or empty url field, download raises the locally
detected HDXError whatever downloader is supplied (so no download is
attempted); with a non-empty url it attempts the download and returns the
pair of the url and the downloaded path. -/
theorem download_c8 (record : Record) :
    (fieldTruthy record "url" = none →
      ∀ df : String → String,
        download record df = Except.error (PyError.hdxError "No URL to download!"))
      ∧ (∀ url, fieldTruthy record "url" = some url →
          ∀ df : String → String, download record df = Except.ok (url, df url)) := by
  constructor
  · intro h df
    simp [download, h]
  · intro url h df
    simp [download, h]

/-- Witness for C8: a record without a url and a record with one. -/
theorem download_c8_witness :
    download noUrlRecord (fun u => u ++ ".tmp")
        = Except.error (PyError.hdxError "No URL to download!")
      ∧ download sampleRecord (fun u => u ++ ".tmp")
          = Except.ok ("http://example.org/data.csv", "http://example.org/data.csv" ++ ".tmp") :=
  ⟨(download_c8 noUrlRecord).1 rfl (fun u => u ++ ".tmp"),
   (download_c8 sampleRecord).2 "http://example.org/data.csv" rfl (fun u => u ++ ".tmp")⟩

/-- Claim C9: each of update_datastore, update_datastore_from_yaml_schema,
update_datastore_for_topline and update_datastore_from_json_schema is
exactly delete_datastore followed by the corresponding create operation,
and on a record with an id its call trace starts with the datastore_delete
call followed by precisely the create operation trace: a full
delete-and-recreate, never an in-place modification. -/
theorem update_datastore_c9 :
    (∀ (record : Record) (schema : List Record) (pk : Option String)
        (dok : Bool) (env : DatastoreEnv),
      update_datastore record schema pk dok env
        = deleteThenCreate record dok (create_datastore record schema pk env))
      ∧ (∀ (ly : String → SchemaData) (record : Record) (path : String)
            (dok : Bool) (env : DatastoreEnv),
          update_datastore_from_yaml_schema ly record path dok env
            = deleteThenCreate record dok
                (create_datastore_from_yaml_schema ly record path env))
      ∧ (∀ (ly : String → SchemaData) (tpath : String) (record : Record)
            (dok : Bool) (env : DatastoreEnv),
          update_datastore_for_topline ly tpath record dok env
            = deleteThenCreate record dok
                (create_datastore_for_topline ly tpath record env))
      ∧ (∀ (lj : String → SchemaData) (record : Record) (path : String)
            (dok : Bool) (env : DatastoreEnv),
          update_datastore_from_json_schema lj record path dok env
            = deleteThenCreate record dok
                (create_datastore_from_json_schema lj record path env))
      ∧ (∀ (record : Record) (rid : String) (schema : List Record)
            (pk : Option String) (dok : Bool) (env : DatastoreEnv),
          lookupField record "id" = some rid →
            (update_datastore record schema pk dok env).calls
              = Call.datastoreDelete rid true
                  :: (create_datastore record schema pk env).calls) := by
  refine ⟨fun _ _ _ _ _ => rfl, fun _ _ _ _ _ => rfl, fun _ _ _ _ _ => rfl,
    fun _ _ _ _ _ => rfl, ?_⟩
  intro record rid schema pk dok env hid
  cases dok <;> simp [update_datastore, delete_datastore, hid]

/-- Witness for C9 at a concrete record and environment. -/
theorem update_datastore_c9_witness :
    (update_datastore sampleRecord [] none true envAllOk).calls
      = Call.datastoreDelete "rid1" true
          :: (create_datastore sampleRecord [] none envAllOk).calls :=
  update_datastore_c9.2.2.2.2 sampleRecord "rid1" [] none true envAllOk rfl

/-- Claim C10: search_in_hdx returns the empty list whenever the result is falsy
or its count is missing or zero, even when the results list is non-empty;
otherwise it returns one Resource per element of results, in remote order. -/
theorem search_in_hdx_c10 (response : Option SearchResult) :
    (response = none → search_in_hdx response = [])
      ∧ (∀ result, response = some result → result.count = none →
          search_in_hdx response = [])
      ∧ (∀ result, response = some result → result.count = some 0 →
          search_in_hdx response = [])
      ∧ (∀ result n, response = some result → result.count = some (n + 1) →
          search_in_hdx response = result.results) := by
  refine ⟨fun h => ?_, fun result h hcount => ?_, fun result h hcount => ?_,
    fun result n h hcount => ?_⟩ <;> subst h
  · rfl
  · simp [search_in_hdx, hcount]
  · simp [search_in_hdx, hcount]
  · simp [search_in_hdx, hcount]

/-- Witness for C10: a zero count with a non-empty results list yields the
empty list, while a positive count yields the results in order. -/
theorem search_in_hdx_c10_witness :
    search_in_hdx (some { count := some 0, results := [sampleRow1, sampleRow2] }) = []
      ∧ search_in_hdx (some { count := some 2, results := [sampleRow1, sampleRow2] })
          = [sampleRow1, sampleRow2] :=
  ⟨(search_in_hdx_c10 (some { count := some 0, results := [sampleRow1, sampleRow2] })).2.2.1
      { count := some 0, results := [sampleRow1, sampleRow2] } rfl rfl,
   (search_in_hdx_c10 (some { count := some 2, results := [sampleRow1, sampleRow2] })).2.2.2
      { count := some 2, results := [sampleRow1, sampleRow2] } 1 rfl rfl⟩

end Hdx
